import Mathlib

/-!
Verification of the agent orchestration core of the nestjs-ai-agent-boilerplate
repository: a shallow embedding of the chat stream relays (ChatService.chat and
AgentService.chat), the LangGraph orchestration graphs (default.graph.ts and
rag-route.graph.ts), the Supabase-backed conversation store access, the thread
identifier fallbacks, and the sandboxed JavaScript executor tool, together with
theorems settling the specification claims about them.
-/

namespace Boilerplate

/-- A tool call requested by the model (LangChain ToolCall shape). -/
structure ToolCall where
  name : String
  args : String
  id : String
deriving DecidableEq, Repr

/-- LangChain message kinds as the graphs use them.  Only an AI message
carries a tool_calls list; a ToolMessage carries the tool name and the
correlating tool_call_id. -/
inductive BaseMsg
  | system (content : String)
  | human (content : String)
  | ai (content : String) (tool_calls : List ToolCall)
  | tool (content : String) (name : String) (tool_call_id : String)
deriving DecidableEq, Repr

/-- Whether a message is a HumanMessage (the instanceof checks in the graphs). -/
def isHuman : BaseMsg → Bool
  | .human _ => true
  | _ => false

/-! ## ChatService.chat stream relay (src/modules/agent/services/chat.service.ts) -/

/-- The streamEvents events ChatService.chat consumes: on_chat_model_stream
with the chunk content, on_tool_start with the tool name, on_tool_end with the
stringified output; every other event kind hits the default case. -/
inductive AgentEvent
  | chatModelStream (chunk : String)
  | toolStart (toolName : String)
  | toolEnd (output : String)
  | other
deriving DecidableEq, Repr

/-- Outbound SSE events ChatService.chat writes (the `event:` label plus data). -/
inductive OutEvent
  | message (d : String)
  | toolStartEv (d : String)
  | toolEv (d : String)
  | errorEv (msg : String)
  | doneEv
deriving DecidableEq, Repr

/-- chunk.replace of every newline by a backslash-n pair (chat.service.ts line 71). -/
def escapeNewlines (s : String) : String := s.replace "\x0a" "\\n"

/-- One iteration of the event loop in ChatService.chat (lines 61-103): an
empty chunk is falsy and skipped; tool start and end are forwarded; other
events fall to the default case and emit nothing. -/
def renderChatEvent : AgentEvent → List OutEvent
  | .chatModelStream c => if c = "" then [] else [.message (escapeNewlines c)]
  | .toolStart n => [.toolStartEv n]
  | .toolEnd o => [.toolEv o]
  | .other => []

/-- The full SSE sequence ChatService.chat writes (lines 61-128).  `delivered`
is the prefix of agent events iterated before the stream completed or threw.
On completion a done event is written; when the try block throws, the catch
writes only an error event and the finally block ends the connection. -/
def chatServiceStream (delivered : List AgentEvent) : Except String Unit → List OutEvent
  | .ok _ => (delivered.map renderChatEvent).flatten ++ [.doneEv]
  | .error msg => (delivered.map renderChatEvent).flatten ++ [.errorEv msg]

/-! ## AgentService.chat stream relay and persistence (src/unnamed/part_007) -/

/-- A message inside chunk.tools.messages: name, content and the optional
tool_call_id as the stream delivers them. -/
structure ToolChunkMsg where
  name : String
  content : String
  tool_call_id : Option String
deriving DecidableEq, Repr

/-- A reasoning step inside chunk.steps: an optional action (tool, toolInput,
log) and an optional observation. -/
structure AgentStep where
  action : Option (String × String × String)
  observation : Option String
deriving DecidableEq, Repr

/-- One chunk of the LangGraph agent stream as AgentService.chat reads it:
the five shapes its loop inspects. -/
structure StreamChunk where
  toolMsgs : List ToolChunkMsg
  agentMsgs : List String
  toolCalls : List ToolCall
  thinking : Option String
  steps : List AgentStep
deriving DecidableEq, Repr

/-- A server-sent data event AgentService.chat writes: the JSON type tag and
its payload. -/
structure DataEvent where
  type : String
  payload : String
deriving DecidableEq, Repr

/-- Event type chosen for a tool result (part_007 lines 279-289): tool_end by
default, specialized for the two rich producers. -/
def toolEventType (toolName : String) : String :=
  if toolName = "public_tender_search" then "public_tender_list"
  else if toolName = "vector_search" then "vector_search"
  else "tool_end"

/-- The tool messages of one chunk that pass the truthiness guard
(toolMessage.name && toolMessage.content) and so are both emitted and pushed
onto toolCallHistory. -/
def chunkNewToolMsgs (c : StreamChunk) : List ToolChunkMsg :=
  c.toolMsgs.filter (fun m => m.name != "" && m.content != "")

/-- Events for one chunk.steps entry (part_007 lines 355-379). -/
def renderStep (st : AgentStep) : List DataEvent :=
  (match st.action with
   | some a => [⟨"action", a.1⟩]
   | none => [])
  ++ (match st.observation with
      | some o => if o = "" then [] else [⟨"observation", o⟩]
      | none => [])

/-- Events AgentService.chat writes for one stream chunk (part_007 lines
257-380), in source order: tool results, agent messages (empty content is
falsy and skipped), tool_call starts, thinking, then steps. -/
def renderChunk (c : StreamChunk) : List DataEvent :=
  (chunkNewToolMsgs c).map (fun m => ⟨toolEventType m.name, m.content⟩)
  ++ c.agentMsgs.filterMap (fun s => if s = "" then none else some ⟨"message", s⟩)
  ++ c.toolCalls.map (fun tc => ⟨"tool_start", tc.name⟩)
  ++ (match c.thinking with
      | some t => if t = "" then [] else [⟨"thinking", t⟩]
      | none => [])
  ++ (c.steps.map renderStep).flatten

/-- The finalAssistantMessage variable after the stream loop: the last
non-empty agent message content, empty when none arrived. -/
def finalAssistant (chunks : List StreamChunk) : String :=
  chunks.foldl (fun acc c => c.agentMsgs.foldl (fun a s => if s = "" then a else s) acc) ""

/-- The full data-event sequence AgentService.chat writes (part_007 lines
257-457).  On success the rendered chunks are followed by the done event
(carrying timing metadata, abstracted here); when the try block throws, the
events delivered so far are followed by an error event and then done. -/
def agentServiceStream (chunks : List StreamChunk) : Except String Unit → List DataEvent
  | .ok _ => (chunks.map renderChunk).flatten ++ [⟨"done", ""⟩]
  | .error msg => (chunks.map renderChunk).flatten ++ [⟨"error", msg⟩, ⟨"done", ""⟩]

/-! ## Conversation store rows and AgentService history handling -/

/-- A row of the conversations table (ConversationHistoryItem plus the
created_at ordering key the query sorts by; inserts leave created_at to the
database default, modelled as 0). -/
structure ConvRow where
  thread_id : String
  role : String
  content : String
  name : Option String
  tool_call_id : Option String
  created_at : Nat
deriving DecidableEq, Repr

/-- Ordering of rows by created_at: the ORDER BY key of the history query. -/
def rowLe (a b : ConvRow) : Prop := a.created_at ≤ b.created_at

instance : DecidableRel rowLe := fun _ _ => Nat.decLe _ _

instance : IsTotal ConvRow rowLe := ⟨fun _ _ => Nat.le_total _ _⟩

instance : IsTrans ConvRow rowLe := ⟨fun _ _ _ => Nat.le_trans⟩

/-- The rows the Supabase query in AgentService.chat (part_007 lines 197-202)
returns: those of the requested thread, ordered by created_at ascending. -/
def fetchHistoryRows (db : List ConvRow) (threadId : String) : List ConvRow :=
  List.insertionSort rowLe (db.filter (fun r => r.thread_id == threadId))

/-- Mapping of one stored row to a LangChain message (part_007 lines 207-231):
system, user, assistant and tool roles are mapped, an unknown role is logged
and skipped.  A restored assistant message carries no tool calls, a restored
tool message falls back to an empty tool_call_id. -/
def rowToMsg (r : ConvRow) : Option BaseMsg :=
  if r.role = "system" then some (.system r.content)
  else if r.role = "user" then some (.human r.content)
  else if r.role = "assistant" then some (.ai r.content [])
  else if r.role = "tool" then
    some (.tool r.content (r.name.getD "") (r.tool_call_id.getD ""))
  else none

/-- The history AgentService.chat works with: nothing is fetched for a falsy
threadId; a query error is only logged, leaving the history empty; otherwise
the fetched rows are mapped to messages. -/
def loadHistory (db : List ConvRow) (fetchErr : Option String) (threadId : String) :
    List BaseMsg :=
  if threadId = "" then []
  else
    match fetchErr with
    | some _ => []
    | none => (fetchHistoryRows db threadId).filterMap rowToMsg

/-- A ToolMessage record as toolCallHistory holds it. -/
structure ToolMsgRec where
  content : String
  tool_call_id : String
  name : Option String
deriving DecidableEq, Repr

/-- The tool messages the history mapping pushes onto toolCallHistory while
restoring rows (part_007 lines 216-224): every row of role tool. -/
def loadedToolMsgs (rows : List ConvRow) : List ToolMsgRec :=
  rows.filterMap fun r =>
    if r.role = "tool" then some ⟨r.content, r.tool_call_id.getD "", r.name⟩ else none

/-- The tool messages the stream loop pushes onto toolCallHistory (part_007
lines 269-277): every chunk tool message passing the truthiness guard. -/
def streamToolMsgs (chunks : List StreamChunk) : List ToolMsgRec :=
  (chunks.map fun c =>
    (chunkNewToolMsgs c).map fun m => (⟨m.content, m.tool_call_id.getD "", some m.name⟩ : ToolMsgRec)).flatten

/-- The rows AgentService.chat inserts at the end of a turn (part_007 lines
382-426): nothing for a falsy threadId; otherwise the user row, one tool row
per toolCallHistory entry (the restored history tool messages followed by the
new ones of this turn), and the assistant row when finalAssistantMessage is
non-empty. -/
def savedRows (threadId : String) (userText : String) (historyRows : List ConvRow)
    (chunks : List StreamChunk) : List ConvRow :=
  if threadId = "" then []
  else
    let toolCallHistory := loadedToolMsgs historyRows ++ streamToolMsgs chunks
    let fin := finalAssistant chunks
    (⟨threadId, "user", userText, none, none, 0⟩ : ConvRow)
      :: (toolCallHistory.map fun t =>
            (⟨threadId, "tool", t.content, t.name, some t.tool_call_id, 0⟩ : ConvRow))
      ++ (if fin = "" then [] else [(⟨threadId, "assistant", fin, none, none, 0⟩ : ConvRow)])

/-- Number of tool rows in a batch of rows. -/
def countToolRows (rows : List ConvRow) : Nat :=
  (rows.filter (fun r => r.role == "tool")).length

/-! ## Router and retrieval augmentation (rag-route.graph.ts) -/

/-- The structured classification result (RouterSchema): a rationale and one
of the labels retrieval, general or tool. -/
structure Router where
  type : String
  logic : String
deriving DecidableEq, Repr

/-- Initial value of the module-level currentRouter variable
(rag-route.graph.ts line 18). -/
def initialRouter : Router := ⟨"general", "Initial state"⟩

/-- analyzeQuery (rag-route.graph.ts lines 21-58).  The empty-messages check
and the last-message read are merged into one getLast? match.  `classify` is
the structured classification call on the last human message; the source
wraps it in no try/catch, so its failure propagates out of the node.  The
returned Router is the value written to the module-level currentRouter. -/
def analyzeQuery (classify : Except String Router) (messages : List BaseMsg) :
    Except String (Router × List BaseMsg) :=
  match messages.getLast? with
  | none => .ok (⟨"general", "No messages to process"⟩, [])
  | some lastMessage =>
    if isHuman lastMessage then
      match classify with
      | .ok r => .ok (r, [])
      | .error e => .error e
    else .ok (⟨"general", "Not a human message"⟩, [])

/-- A document returned by the retriever tool: its content and the optional
metadata.title. -/
structure RetrievedDoc where
  content : String
  title : Option String
deriving DecidableEq, Repr

/-- doc.metadata.title || 'Untitled': a missing or empty title is falsy. -/
def docHeader (d : RetrievedDoc) : String :=
  match d.title with
  | some t => if t = "" then "Untitled" else t
  | none => "Untitled"

/-- One formatted match inside the context text (rag-route.graph.ts line 92). -/
def formatDoc (d : RetrievedDoc) : String :=
  "Document: " ++ docHeader d ++ "\x0a" ++ d.content

/-- Separator joining formatted matches (rag-route.graph.ts line 93). -/
def sepText : String := "\x0a\x0a---\x0a\x0a"

/-- Leading text of the injected context message (rag-route.graph.ts line 100). -/
def ctxIntro : String :=
  "Here is relevant information to help answer the user\x27s question:\x0a\x0a"

/-- retrieveRelevantDocs (rag-route.graph.ts lines 61-111).  `retrieve` is the
retriever tool call as a function of the query and the limit; the node invokes
it at the last human message content and limit 5, wraps it in a try/catch that
only logs, and returns one system context message exactly when at least one
document came back.  A non-human or missing last message yields nothing, as
does a currentRouter other than retrieval. -/
def retrieveRelevantDocs
    (retrieve : String → Nat → Except String (List RetrievedDoc))
    (currentRouter : Router) (messages : List BaseMsg) : List BaseMsg :=
  if currentRouter.type ≠ "retrieval" then []
  else
    match messages.getLast? with
    | some (.human q) =>
      (match retrieve q 5 with
       | .ok docs =>
         if docs.length ≠ 0 then
           [.system (ctxIntro ++ String.intercalate sepText (docs.map formatDoc))]
         else []
       | .error _ => [])
    | _ => []

/-- The MessagesAnnotation reducer: the messages a node returns are appended
to the state. -/
def applyUpdate (messages update : List BaseMsg) : List BaseMsg := messages ++ update

/-! ## The shared currentRouter variable across two concurrent turns -/

/-- Which of two concurrently executing turns acts. -/
inductive TurnId
  | A
  | B
deriving DecidableEq, Repr

/-- The two router-relevant steps of a turn in rag-route.graph.ts: the
analyze_query node writing currentRouter, and the retrieve_context node
reading it. -/
inductive RagStep
  | analyze
  | retrieve
deriving DecidableEq, Repr

/-- State of an interleaved execution: the single module-level currentRouter
cell, plus what each turn observed at its retrieve step. -/
structure RagSchedState where
  currentRouter : Router
  readA : Option Router
  readB : Option Router
deriving DecidableEq, Repr

/-- Effect of one scheduled step: analyze writes that turn's classification
into the shared cell; retrieve reads whatever the cell holds now. -/
def ragStep (classA classB : Router) (s : RagSchedState) : TurnId × RagStep → RagSchedState
  | (.A, .analyze) => { s with currentRouter := classA }
  | (.B, .analyze) => { s with currentRouter := classB }
  | (.A, .retrieve) => { s with readA := some s.currentRouter }
  | (.B, .retrieve) => { s with readB := some s.currentRouter }

/-- Run an interleaving of the two turns from the initial module state. -/
def runSchedule (classA classB : Router) (sched : List (TurnId × RagStep)) : RagSchedState :=
  sched.foldl (ragStep classA classB) ⟨initialRouter, none, none⟩

/-! ## Graph routing and the recursion limit (default.graph.ts, part_007) -/

/-- The END sentinel of LangGraph. -/
def ENDNode : String := "__end__"

/-- routeModelOutput (default.graph.ts lines 24-35 and rag-route.graph.ts
lines 131-142).  In the source condition `tool_calls?.length || 0 > 0` the
comparison binds tighter, so the test is truthy exactly when the last message
carries a non-empty tool_calls list — and only an AI message carries one. -/
def routeModelOutput (messages : List BaseMsg) : String :=
  match messages.getLast? with
  | some (.ai _ tcs) => if tcs.length ≠ 0 then "tools" else ENDNode
  | _ => ENDNode

/-- The two nodes of the model-call / tool-call cycle (call_model and tools in
default.graph.ts; the react agent of part_007 has the same shape). -/
inductive GNode
  | model
  | tools
deriving DecidableEq, Repr

/-- The call_model node: append the model response for the current context.
`respond` gives the response content and requested tool calls. -/
def modelNode (respond : List BaseMsg → String × List ToolCall) (msgs : List BaseMsg) :
    List BaseMsg :=
  msgs ++ [.ai (respond msgs).1 (respond msgs).2]

/-- The ToolNode: execute each tool call of the last AI message and append one
tool message per call, in request order. -/
def toolsNode (exec : ToolCall → String) (msgs : List BaseMsg) : List BaseMsg :=
  match msgs.getLast? with
  | some (.ai _ tcs) => msgs ++ tcs.map (fun tc => .tool (exec tc) tc.name tc.id)
  | _ => msgs

/-- One LangGraph run with the remaining recursion_limit as fuel: each node
execution is one super-step, and needing a step with no fuel left raises
GraphRecursionError.  The second component counts model-node entries.
AgentService.chat passes recursion_limit 10 (part_007 line 247). -/
def runGraph (respond : List BaseMsg → String × List ToolCall) (exec : ToolCall → String) :
    Nat → GNode → List BaseMsg → Except String (List BaseMsg) × Nat
  | 0, _, _ => (.error "GraphRecursionError", 0)
  | n + 1, .model, msgs =>
    let msgs2 := modelNode respond msgs
    if routeModelOutput msgs2 = "tools" then
      let r := runGraph respond exec n .tools msgs2
      (r.1, r.2 + 1)
    else (.ok msgs2, 1)
  | n + 1, .tools, msgs => runGraph respond exec n .model (toolsNode exec msgs)

/-- A model that requests a tool call on every invocation. -/
def pingPongModel : List BaseMsg → String × List ToolCall :=
  fun _ => ("", [⟨"calc", "2+2", "call-1"⟩])

/-- A tool execution that echoes its arguments. -/
def echoTool : ToolCall → String := fun tc => tc.args

/-! ## Thread identifier fallbacks and the shared checkpoint (part_004, part_007) -/

/-- AgentController.chat passes chatDto.threadId || '' (part_004 lines 17-27):
a missing or empty threadId becomes the empty string. -/
def controllerThreadId (threadId : Option String) : String :=
  match threadId with
  | none => ""
  | some t => if t = "" then "" else t

/-- AgentService.chat configures thread_id: threadId || 'default' (part_007
line 246): a falsy threadId falls back to the shared key. -/
def agentThreadKey (threadId : String) : String :=
  if threadId = "" then "default" else threadId

/-- The checkpoint key a chat request ends up using. -/
def effectiveThreadKey (threadId : Option String) : String :=
  agentThreadKey (controllerThreadId threadId)

/-- Writing a checkpoint into the MemorySaver, keyed by thread_id. -/
def putCheckpoint (store : List (String × List BaseMsg)) (key : String)
    (v : List BaseMsg) : List (String × List BaseMsg) :=
  (key, v) :: store

/-- Reading the checkpoint of a thread_id from the MemorySaver. -/
def getCheckpoint (store : List (String × List BaseMsg)) (key : String) :
    Option (List BaseMsg) :=
  (store.find? (fun p => p.1 == key)).map Prod.snd

/-! ## The sandboxed JavaScript executor tool (part_008) -/

/-- JavaScript values as safeStringify distinguishes them (part_008 lines
194-245): null, undefined, a non-object rendered by String(value), an array
(its JSON, none when JSON.stringify throws), a Date, a RegExp, an Error, a
Map, a Set, or a plain object (its entries already rendered to key and value
text, none when reading them throws). -/
inductive JsValue
  | jsNull
  | jsUndefined
  | primitive (shown : String)
  | array (json : Option String)
  | dateObj (iso : String)
  | regexpObj (shown : String)
  | errorObj (name : String) (msg : String)
  | mapObj
  | setObj
  | plainObj (entries : Option (List (String × String)))
deriving DecidableEq, Repr

/-- One rendered entry of a plain object. -/
def formatEntry (e : String × String) : String :=
  "\x22" ++ e.1 ++ "\x22: " ++ e.2

/-- safeStringify (part_008 lines 194-245): total, every branch returns a
string. -/
def safeStringify : JsValue → String
  | .jsNull => "null"
  | .jsUndefined => "undefined"
  | .primitive s => s
  | .array (some j) => j
  | .array none => "[Array]"
  | .dateObj iso => iso
  | .regexpObj s => s
  | .errorObj n m => n ++ ": " ++ m
  | .mapObj => "[Map]"
  | .setObj => "[Set]"
  | .plainObj none => "[object Object]"
  | .plainObj (some entries) =>
    if entries.isEmpty then "\x7b\x7d"
    else "\x7b " ++ String.intercalate ", " (entries.map formatEntry) ++ " \x7d"

/-- What the wrapper running inside the VM produced: success carries the
code's return value, failure the thrown error's message (none when the thrown
value had no message), both carry the captured logs. -/
structure ExecRun where
  success : Bool
  result : JsValue
  error : Option String
  logs : List String
deriving DecidableEq, Repr

/-- Outcome of vm.runInContext: either the wrapper object came back, or the
VM itself threw — as the 2000 ms timeout does — with an Error message, or
with a non-Error value. -/
inductive VMOutcome
  | ran (r : ExecRun)
  | vmError (msg : Option String)
deriving DecidableEq, Repr

/-- The VM wall-clock timeout in milliseconds (part_008 line 282). -/
def vmTimeoutMs : Nat := 2000

/-- Output formatting of a completed wrapper run (part_008 lines 290-304):
logs first, then the stringified result or the error text. -/
def formatRun (r : ExecRun) : String :=
  (if r.logs.isEmpty then "" else String.intercalate "\x0a" r.logs ++ "\x0a\x0a")
  ++ (if r.success then safeStringify r.result
      else "Error: " ++ (match r.error with | some m => m | none => "undefined"))

/-- executeJavaScriptSafely (part_008 lines 250-312): the in-VM wrapper has
already caught runtime errors of the executed code; the outer catch turns a
VM-level throw (such as the timeout) into error text.  Every branch returns a
string. -/
def executeJavaScriptSafely (vmRun : VMOutcome) : String :=
  match vmRun with
  | .ran r => formatRun r
  | .vmError (some m) => "JavaScript execution error: " ++ m
  | .vmError none => "Unknown JavaScript execution error"

/-- The tool's structured output: a result string. -/
structure JsExecOutput where
  result : String
deriving DecidableEq, Repr

/-- outputSchema.parse on the result (part_008 line 336): z.string() accepts
every string, so parsing an already-string result always succeeds. -/
def outputSchemaParse (r : String) : Except String JsExecOutput := .ok ⟨r⟩

/-- javaScriptExecutorTool.func (part_008 lines 331-345): run the code, parse
the output schema, and only a rejection or parse failure would reach the
rethrowing catch. -/
def javaScriptExecutorFunc (vmRun : VMOutcome) : Except String JsExecOutput :=
  match outputSchemaParse (executeJavaScriptSafely vmRun) with
  | .ok out => .ok out
  | .error e => .error ("Failed to execute JavaScript code: " ++ e)

/-! ## Theorems -/

/-- Helper: the last element of a list extended by two elements. -/
theorem getLast?_append_pair {α : Type} (l : List α) (a b : α) :
    (l ++ [a, b]).getLast? = some b := by
  rw [show l ++ [a, b] = (l ++ [a]) ++ [b] by simp]
  exact List.getLast?_concat _

/-- C1 (counterexample): on the failure path of ChatService.chat the last
event written is the error event and no done event appears, so the claim that
the stream always terminates with done on both paths is false on this code. -/
theorem chatService_error_path_drops_done :
    (chatServiceStream [] (Except.error "model unavailable")).getLast? ≠
      some OutEvent.doneEv ∧
    OutEvent.doneEv ∉ chatServiceStream [] (Except.error "model unavailable") := by
  decide

/-- C1 (amended): AgentService.chat terminates the stream with done on both
the success and the failure path, writing the error message immediately
before done when the turn failed; ChatService.chat terminates with done on
success but, on failure, its last write is the error event. -/
theorem stream_termination_events :
    (∀ chunks outcome, (agentServiceStream chunks outcome).getLast? =
        some ⟨"done", ""⟩) ∧
    (∀ chunks msg, agentServiceStream chunks (Except.error msg) =
        (chunks.map renderChunk).flatten ++ [⟨"error", msg⟩, ⟨"done", ""⟩]) ∧
    (∀ events, (chatServiceStream events (Except.ok ())).getLast? =
        some OutEvent.doneEv) ∧
    (∀ events msg, (chatServiceStream events (Except.error msg)).getLast? =
        some (OutEvent.errorEv msg)) := by
  refine ⟨?_, ?_, ?_, ?_⟩
  · intro chunks outcome
    cases outcome with
    | ok _ => exact List.getLast?_concat _
    | error msg => exact getLast?_append_pair _ _ _
  · intro chunks msg
    rfl
  · intro events
    exact List.getLast?_concat _
  · intro events msg
    exact List.getLast?_concat _

/-- C2 (code_bug): a turn on a thread whose stored history already contains a
tool row saves that historical tool message again alongside the turn's new
one — two tool rows are inserted although the turn produced one tool call. -/
theorem savedRows_duplicates_history_tool_rows :
    countToolRows (savedRows "t1" "hola"
        [⟨"t1", "tool", "old result", some "calc", some "call-0", 1⟩]
        [⟨[⟨"calc", "42", some "call-1"⟩], ["The answer is 42"], [], none, []⟩]) = 2 ∧
    (streamToolMsgs
        [⟨[⟨"calc", "42", some "call-1"⟩], ["The answer is 42"], [], none, []⟩]).length = 1 ∧
    (2 : Nat) ≠ 1 := by
  decide

/-- C3 (counterexample): a failing classification call makes analyzeQuery
fail rather than degrade the routing to general, so the claim that a
classification failure never aborts the turn is false on this code. -/
theorem analyzeQuery_failure_not_degraded :
    analyzeQuery (Except.error "model unavailable") [BaseMsg.human "hola"] =
      Except.error "model unavailable" ∧
    (analyzeQuery (Except.error "model unavailable") [BaseMsg.human "hola"]).isOk = false :=
  ⟨rfl, rfl⟩

/-- C3 (amended): when the last message is a human message, a failure of the
structured classification call propagates out of analyzeQuery and aborts the
turn; only the no-messages branch (and the non-human branch) degrades the
routing to general. -/
theorem analyzeQuery_error_propagates (classify : Except String Router)
    (messages : List BaseMsg) (m : BaseMsg) (e : String)
    (hlast : messages.getLast? = some m) (hhum : isHuman m = true)
    (herr : classify = Except.error e) :
    analyzeQuery classify messages = Except.error e ∧
    analyzeQuery classify [] = Except.ok (⟨"general", "No messages to process"⟩, []) := by
  subst herr
  constructor
  · unfold analyzeQuery
    rw [hlast]
    simp [hhum]
  · rfl

theorem analyzeQuery_error_propagates_witness :
    analyzeQuery (Except.error "boom") [BaseMsg.human "hola"] = Except.error "boom" ∧
    analyzeQuery (Except.error "boom") [] =
      Except.ok (⟨"general", "No messages to process"⟩, []) :=
  analyzeQuery_error_propagates (Except.error "boom") [BaseMsg.human "hola"]
    (BaseMsg.human "hola") "boom" rfl rfl rfl

/-- C4 (code_bug): with the module-level currentRouter shared by both turns,
the interleaving A.analyze, B.analyze, A.retrieve makes turn A's retrieval
step read turn B's classification (general) instead of its own (retrieval). -/
theorem sharedRouter_cross_turn_interference :
    (runSchedule ⟨"retrieval", "needs docs"⟩ ⟨"general", "chit chat"⟩
        [(TurnId.A, RagStep.analyze), (TurnId.B, RagStep.analyze),
         (TurnId.A, RagStep.retrieve), (TurnId.B, RagStep.retrieve)]).readA =
      some ⟨"general", "chit chat"⟩ ∧
    (⟨"general", "chit chat"⟩ : Router) ≠ ⟨"retrieval", "needs docs"⟩ := by
  decide

/-- C5 (counterexample): with recursion_limit 10 and a model that requests a
tool call on every invocation, the run does not reach a DONE state with a
final answer — it fails with GraphRecursionError. -/
theorem recursion_limit_no_done_state :
    ((runGraph pingPongModel echoTool 10 GNode.model [BaseMsg.human "hola"]).1).isOk
      = false := by
  decide

/-- C5 (amended): the number of model-node entries in a run is bounded by the
recursion limit (10 as AgentService.chat configures it); a model that keeps
requesting tools exhausts the limit and the run fails with
GraphRecursionError, which the relay surfaces as an error event followed by a
terminal done — no last assistant text is delivered as a DONE final answer. -/
theorem recursion_limit_bounds_model_calls :
    (∀ respond exec n node msgs,
      (runGraph respond exec n node msgs).2 ≤ n) ∧
    (runGraph pingPongModel echoTool 10 GNode.model [BaseMsg.human "hola"]).1 =
      Except.error "GraphRecursionError" ∧
    (∀ chunks msg, (agentServiceStream chunks (Except.error msg)).getLast? =
      some ⟨"done", ""⟩) := by
  refine ⟨?_, by rfl, ?_⟩
  · intro respond exec n
    induction n with
    | zero =>
      intro node msgs
      simp [runGraph]
    | succ k ih =>
      intro node msgs
      cases node with
      | model =>
        by_cases h : routeModelOutput (modelNode respond msgs) = "tools"
        · simp only [runGraph, h, if_pos]
          exact Nat.succ_le_succ (ih _ _)
        · simp only [runGraph, h, if_neg, not_false_iff]
          omega
      | tools =>
        simp only [runGraph]
        exact Nat.le_succ_of_le (ih _ _)
  · intro chunks msg
    exact getLast?_append_pair _ _ _

/-- C6: the history fetch returns the thread's rows in non-decreasing
created_at order; a thread with no rows yields the empty sequence; a query
error is absorbed (empty history, nothing thrown), and otherwise the loaded
messages are exactly the mapped ordered rows. -/
theorem loadHistory_sorted_and_total (db : List ConvRow) (threadId : String) :
    List.Sorted rowLe (fetchHistoryRows db threadId) ∧
    ((∀ r ∈ db, r.thread_id ≠ threadId) → fetchHistoryRows db threadId = []) ∧
    (∀ e, loadHistory db (some e) threadId = []) ∧
    (threadId ≠ "" → loadHistory db none threadId =
      (fetchHistoryRows db threadId).filterMap rowToMsg) := by
  refine ⟨List.sorted_insertionSort rowLe _, ?_, ?_, ?_⟩
  · intro h
    have hf : db.filter (fun r => r.thread_id == threadId) = [] := by
      refine List.filter_eq_nil_iff.mpr ?_
      intro a ha
      simp [h a ha]
    simp [fetchHistoryRows, hf, List.insertionSort]
  · intro e
    by_cases h : threadId = "" <;> simp [loadHistory, h]
  · intro h
    simp [loadHistory, h]

/-- C7: routeModelOutput routes to the tools node exactly when the last
message of the state is an AI message whose tool_calls list is non-empty, and
otherwise returns END. -/
theorem routeModelOutput_tools_iff (messages : List BaseMsg) :
    (routeModelOutput messages = "tools" ↔
      ∃ c tcs, messages.getLast? = some (BaseMsg.ai c tcs) ∧ tcs ≠ []) ∧
    (routeModelOutput messages = "tools" ∨ routeModelOutput messages = ENDNode) := by
  rcases hl : messages.getLast? with _ | m
  · constructor
    · simp [routeModelOutput, hl, ENDNode]
    · right
      simp [routeModelOutput, hl]
  · cases m with
    | ai c tcs =>
      by_cases hn : tcs = []
      · subst hn
        constructor
        · simp [routeModelOutput, hl, ENDNode]
        · right
          simp [routeModelOutput, hl]
      · constructor
        · simp only [routeModelOutput, hl]
          rw [if_pos (by simpa using hn)]
          simp only [true_iff]
          exact ⟨c, tcs, rfl, hn⟩
        · left
          simp only [routeModelOutput, hl]
          rw [if_pos (by simpa using hn)]
    | system s =>
      constructor
      · simp [routeModelOutput, hl, ENDNode]
      · right
        simp [routeModelOutput, hl]
    | human s =>
      constructor
      · simp [routeModelOutput, hl, ENDNode]
      · right
        simp [routeModelOutput, hl]
    | tool s n i =>
      constructor
      · simp [routeModelOutput, hl, ENDNode]
      · right
        simp [routeModelOutput, hl]

/-- C8: when the routing decision is retrieval and the last message is the
user's, the augmentor is determined by the retriever called on the raw user
text with limit 5: zero matches or a caught retrieval error inject nothing,
and at least one match injects exactly one system context message
concatenating the matches, appended immediately after the user message. -/
theorem retrieveRelevantDocs_contract
    (retrieve : String → Nat → Except String (List RetrievedDoc))
    (router : Router) (init : List BaseMsg) (q : String)
    (hr : router.type = "retrieval") :
    (retrieve q 5 = Except.ok [] →
      retrieveRelevantDocs retrieve router (init ++ [BaseMsg.human q]) = []) ∧
    (∀ e, retrieve q 5 = Except.error e →
      retrieveRelevantDocs retrieve router (init ++ [BaseMsg.human q]) = []) ∧
    (∀ docs, retrieve q 5 = Except.ok docs → docs ≠ [] →
      retrieveRelevantDocs retrieve router (init ++ [BaseMsg.human q]) =
        [BaseMsg.system (ctxIntro ++ String.intercalate sepText (docs.map formatDoc))] ∧
      applyUpdate (init ++ [BaseMsg.human q])
          (retrieveRelevantDocs retrieve router (init ++ [BaseMsg.human q])) =
        init ++ [BaseMsg.human q,
          BaseMsg.system (ctxIntro ++ String.intercalate sepText (docs.map formatDoc))]) := by
  have hlast : (init ++ [BaseMsg.human q]).getLast? = some (BaseMsg.human q) :=
    List.getLast?_concat _
  have hguard : ¬ router.type ≠ "retrieval" := by simp [hr]
  refine ⟨?_, ?_, ?_⟩
  · intro hret
    unfold retrieveRelevantDocs
    rw [if_neg hguard, hlast]
    simp [hret]
  · intro e hret
    unfold retrieveRelevantDocs
    rw [if_neg hguard, hlast]
    simp [hret]
  · intro docs hret hne
    have heq : retrieveRelevantDocs retrieve router (init ++ [BaseMsg.human q]) =
        [BaseMsg.system (ctxIntro ++ String.intercalate sepText (docs.map formatDoc))] := by
      unfold retrieveRelevantDocs
      rw [if_neg hguard, hlast]
      simp only [hret]
      rw [if_pos (by simpa using hne)]
    refine ⟨heq, ?_⟩
    rw [heq]
    simp [applyUpdate]

theorem retrieveRelevantDocs_contract_witness :
    retrieveRelevantDocs (fun _ _ => Except.ok ([] : List RetrievedDoc))
      ⟨"retrieval", "needs docs"⟩ [BaseMsg.human "hola"] = [] :=
  (retrieveRelevantDocs_contract (fun _ _ => Except.ok []) ⟨"retrieval", "needs docs"⟩
    [] "hola" rfl).1 rfl

/-- C9: a chat request that omits threadId is mapped by the controller to the
empty string and by AgentService to the shared checkpoint key default, so any
two such requests use the same key, and a checkpoint written under it by one
request is read back by the other. -/
theorem omitted_threadId_shares_default_thread :
    effectiveThreadKey none = "default" ∧
    controllerThreadId none = "" ∧
    (∀ t1 t2 : Option String, t1 = none → t2 = none →
      effectiveThreadKey t1 = effectiveThreadKey t2) ∧
    (∀ store v, getCheckpoint (putCheckpoint store (effectiveThreadKey none) v)
        (effectiveThreadKey none) = some v) := by
  refine ⟨rfl, rfl, ?_, ?_⟩
  · intro t1 t2 h1 h2
    rw [h1, h2]
  · intro store v
    simp [getCheckpoint, putCheckpoint, List.find?]

/-- C10: the javascript_executor tool's function always succeeds with a
result-string object: a runtime error of the executed code is reported as
error text inside the result, and a VM-level throw — the 2000 ms wall-clock
timeout included — is caught and rendered as execution-error text, so no
exception reaches the orchestration loop. -/
theorem javascript_executor_never_rejects :
    (∀ vmRun, (javaScriptExecutorFunc vmRun).isOk = true) ∧
    (∀ vmRun, javaScriptExecutorFunc vmRun =
      Except.ok ⟨executeJavaScriptSafely vmRun⟩) ∧
    (∀ m, javaScriptExecutorFunc (VMOutcome.vmError (some m)) =
      Except.ok ⟨"JavaScript execution error: " ++ m⟩) ∧
    (∀ r, r.success = false → executeJavaScriptSafely (VMOutcome.ran r) =
      (if r.logs.isEmpty then "" else String.intercalate "\x0a" r.logs ++ "\x0a\x0a")
      ++ ("Error: " ++ (match r.error with | some m => m | none => "undefined"))) ∧
    vmTimeoutMs = 2000 := by
  refine ⟨?_, ?_, ?_, ?_, rfl⟩
  · intro vmRun
    rfl
  · intro vmRun
    rfl
  · intro m
    rfl
  · intro r hr
    simp [executeJavaScriptSafely, formatRun, hr]

end Boilerplate
